import Mathlib

/-!
Verification of `show_color.py`: a PyMOL extension that reverse-maps RGB
colour tuples to human-readable colour names and labels atoms with them.

The embedding models Python floats as exact rationals, Python `round(c, 3)`
as banker's rounding to 3 decimal places on rationals, and the two Python
dict literals as association lists in source order, looked up with
last-binding-wins semantics (which is exactly what a Python dict literal
with duplicate keys, followed by a `{**a, **b}` merge, computes).
-/

attribute [local semireducible] Rat.ofScientific Rat.mul Rat.inv Rat.add Rat.sub

set_option maxRecDepth 8000

namespace ShowColor

/-- Floor of a rational, written directly over the numerator and denominator
so that it evaluates inside the kernel. -/
def ratFloor (x : ℚ) : ℤ := x.num.fdiv x.den

/-- Python's builtin `round` to an integer: nearest integer, with ties going
to the even integer (banker's rounding), modelled on exact rationals. -/
def pyRoundInt (x : ℚ) : ℤ :=
  let n : ℤ := ratFloor x
  if x - n < 1 / 2 then n
  else if 1 / 2 < x - n then n + 1
  else if n % 2 = 0 then n else n + 1

/-- Python's `round(c, 3)`: round a channel value to 3 decimal places. -/
def round3 (c : ℚ) : ℚ := (pyRoundInt (c * 1000) : ℚ) / 1000

/-- An RGB value as the script passes it around: a finite sequence of channel
values.  All table keys have exactly 3 components, but `get_color_name_from_rgb`
accepts any length, like the Python original. -/
abbrev RGB := List ℚ

def reverse_simple_named_colors : List (RGB × String) := [
  ([0.5, 1.0, 1.0], "aquamarine"),
  ([0.0, 0.0, 0.0], "black"),
  ([0.0, 0.0, 1.0], "blue"),
  ([0.85, 0.85, 1.0], "bluewhite"),
  ([0.1, 0.1, 1.0], "br0"),
  ([0.2, 0.1, 0.9], "br1"),
  ([0.3, 0.1, 0.8], "br2"),
  ([0.4, 0.1, 0.7], "br3"),
  ([0.5, 0.1, 0.6], "br4"),
  ([0.6, 0.1, 0.5], "br5"),
  ([0.7, 0.1, 0.4], "br6"),
  ([0.8, 0.1, 0.3], "br7"),
  ([0.9, 0.1, 0.2], "br8"),
  ([1.0, 0.1, 0.1], "br9"),
  ([1.0, 0.7, 0.2], "brightorange"),
  ([0.65, 0.32, 0.17], "brown"),
  ([0.2, 1.0, 0.2], "carbon"),
  ([0.5, 1.0, 0.0], "chartreuse"),
  ([0.555, 0.222, 0.111], "chocolate"),
  ([0.0, 1.0, 1.0], "cyan"),
  ([0.73, 0.55, 0.52], "darksalmon"),
  ([1.0, 1.0, 0.0], "dash"),
  ([0.25, 0.25, 0.65], "deepblue"),
  ([0.6, 0.6, 0.1], "deepolive"),
  ([0.6, 0.1, 0.6], "deeppurple"),
  ([1.0, 0.42, 0.42], "deepsalmon"),
  ([0.1, 0.6, 0.6], "deepteal"),
  ([0.1, 0.1, 0.6], "density"),
  ([0.7, 0.5, 0.5], "dirtyviolet"),
  ([0.698, 0.13, 0.13], "firebrick"),
  ([0.2, 0.6, 0.2], "forest"),
  ([0.5, 0.5, 0.5], "gray"),
  ([0.0, 1.0, 0.0], "green"),
  ([0.25, 1.0, 0.75], "greencyan"),
  ([1.0, 0.0, 0.5], "hotpink"),
  ([0.9, 0.9, 0.9], "hydrogen"),
  ([0.75, 0.75, 1.0], "lightblue"),
  ([1.0, 0.2, 0.8], "lightmagenta"),
  ([1.0, 0.8, 0.5], "lightorange"),
  ([1.0, 0.75, 0.87], "lightpink"),
  ([0.4, 0.7, 0.7], "lightteal"),
  ([0.5, 1.0, 0.5], "lime"),
  ([0.0, 1.0, 0.5], "limegreen"),
  ([0.75, 1.0, 0.25], "limon"),
  ([1.0, 0.0, 1.0], "magenta"),
  ([0.0, 0.5, 1.0], "marine"),
  ([0.2, 0.2, 1.0], "nitrogen"),
  ([0.77, 0.7, 0.0], "olive"),
  ([1.0, 0.5, 0.0], "orange"),
  ([1.0, 0.3, 0.3], "oxygen"),
  ([0.8, 1.0, 1.0], "palecyan"),
  ([0.65, 0.9, 0.65], "palegreen"),
  ([1.0, 1.0, 0.5], "paleyellow"),
  ([1.0, 0.65, 0.85], "pink"),
  ([0.75, 0.0, 0.75], "purple"),
  ([0.5, 0.0, 1.0], "purpleblue"),
  ([0.7, 0.3, 0.4], "raspberry"),
  ([1.0, 0.0, 0.0], "red"),
  ([0.6, 0.2, 0.2], "ruby"),
  ([1.0, 0.6, 0.6], "salmon"),
  ([0.72, 0.55, 0.3], "sand"),
  ([0.2, 0.5, 0.8], "skyblue"),
  ([0.5, 0.5, 1.0], "slate"),
  ([0.55, 0.7, 0.4], "smudge"),
  ([0.52, 0.75, 0.0], "splitpea"),
  ([0.9, 0.775, 0.25], "sulfur"),
  ([0.0, 0.75, 0.75], "teal"),
  ([0.3, 0.3, 1.0], "tv_blue"),
  ([0.2, 1.0, 0.2], "tv_green"),
  ([1.0, 0.55, 0.15], "tv_orange"),
  ([1.0, 0.2, 0.2], "tv_red"),
  ([1.0, 1.0, 0.2], "tv_yellow"),
  ([1.0, 0.5, 1.0], "violet"),
  ([0.55, 0.25, 0.6], "violetpurple"),
  ([0.85, 0.2, 0.5], "warmpink"),
  ([0.99, 0.82, 0.65], "wheat"),
  ([1.0, 1.0, 1.0], "white"),
  ([1.0, 1.0, 0.0], "yellow"),
  ([1.0, 0.87, 0.37], "yelloworange")]

def reverse_chemical_element_colors : List (RGB × String) := [
  ([0.439, 0.671, 0.980], "actinium"),
  ([0.749, 0.651, 0.651], "aluminum"),
  ([0.329, 0.361, 0.949], "americium"),
  ([0.620, 0.388, 0.710], "antimony"),
  ([0.502, 0.820, 0.890], "argon"),
  ([0.741, 0.502, 0.890], "arsenic"),
  ([0.459, 0.310, 0.271], "astatine"),
  ([0.000, 0.788, 0.000], "barium"),
  ([0.541, 0.310, 0.890], "berkelium"),
  ([0.761, 1.000, 0.000], "beryllium"),
  ([0.620, 0.310, 0.710], "bismuth"),
  ([0.878, 0.000, 0.220], "bohrium"),
  ([1.000, 0.710, 0.710], "boron"),
  ([0.651, 0.161, 0.161], "bromine"),
  ([1.000, 0.851, 0.561], "cadmium"),
  ([0.239, 1.000, 0.000], "calcium"),
  ([0.631, 0.212, 0.831], "californium"),
  ([0.200, 1.000, 0.200], "carbon"),
  ([1.000, 1.000, 0.780], "cerium"),
  ([0.341, 0.090, 0.561], "cesium"),
  ([0.122, 0.941, 0.122], "chlorine"),
  ([0.541, 0.600, 0.780], "chromium"),
  ([0.941, 0.565, 0.627], "cobalt"),
  ([0.784, 0.502, 0.200], "copper"),
  ([0.471, 0.361, 0.890], "curium"),
  ([0.900, 0.900, 0.900], "deuterium"),
  ([0.820, 0.000, 0.310], "dubnium"),
  ([0.122, 1.000, 0.780], "dysprosium"),
  ([0.702, 0.122, 0.831], "einsteinium"),
  ([0.000, 0.902, 0.459], "erbium"),
  ([0.380, 1.000, 0.780], "europium"),
  ([0.702, 0.122, 0.729], "fermium"),
  ([0.702, 1.000, 1.000], "fluorine"),
  ([0.259, 0.000, 0.400], "francium"),
  ([0.271, 1.000, 0.780], "gadolinium"),
  ([0.761, 0.561, 0.561], "gallium"),
  ([0.400, 0.561, 0.561], "germanium"),
  ([1.000, 0.820, 0.137], "gold"),
  ([0.302, 0.761, 1.000], "hafnium"),
  ([0.902, 0.000, 0.180], "hassium"),
  ([0.851, 1.000, 1.000], "helium"),
  ([0.000, 1.000, 0.612], "holmium"),
  ([0.900, 0.900, 0.900], "hydrogen"),
  ([0.651, 0.459, 0.451], "indium"),
  ([0.580, 0.000, 0.580], "iodine"),
  ([0.090, 0.329, 0.529], "iridium"),
  ([0.878, 0.400, 0.200], "iron"),
  ([0.361, 0.722, 0.820], "krypton"),
  ([0.439, 0.831, 1.000], "lanthanum"),
  ([0.780, 0.000, 0.400], "lawrencium"),
  ([0.341, 0.349, 0.380], "lead"),
  ([0.800, 0.502, 1.000], "lithium"),
  ([0.000, 0.671, 0.141], "lutetium"),
  ([0.541, 1.000, 0.000], "magnesium"),
  ([0.612, 0.478, 0.780], "manganese"),
  ([0.922, 0.000, 0.149], "meitnerium"),
  ([0.702, 0.051, 0.651], "mendelevium"),
  ([0.722, 0.722, 0.816], "mercury"),
  ([0.329, 0.710, 0.710], "molybdenum"),
  ([0.780, 1.000, 0.780], "neodymium"),
  ([0.702, 0.890, 0.961], "neon"),
  ([0.000, 0.502, 1.000], "neptunium"),
  ([0.314, 0.816, 0.314], "nickel"),
  ([0.451, 0.761, 0.788], "niobium"),
  ([0.200, 0.200, 1.000], "nitrogen"),
  ([0.741, 0.051, 0.529], "nobelium"),
  ([0.149, 0.400, 0.588], "osmium"),
  ([1.000, 0.300, 0.300], "oxygen"),
  ([0.000, 0.412, 0.522], "palladium"),
  ([1.000, 0.502, 0.000], "phosphorus"),
  ([0.816, 0.816, 0.878], "platinum"),
  ([0.000, 0.420, 1.000], "plutonium"),
  ([0.671, 0.361, 0.000], "polonium"),
  ([0.561, 0.251, 0.831], "potassium"),
  ([0.851, 1.000, 0.780], "praseodymium"),
  ([0.639, 1.000, 0.780], "promethium"),
  ([0.000, 0.631, 1.000], "protactinium"),
  ([0.000, 0.490, 0.000], "radium"),
  ([0.259, 0.510, 0.588], "radon"),
  ([0.149, 0.490, 0.671], "rhenium"),
  ([0.039, 0.490, 0.549], "rhodium"),
  ([0.439, 0.180, 0.690], "rubidium"),
  ([0.141, 0.561, 0.561], "ruthenium"),
  ([0.800, 0.000, 0.349], "rutherfordium"),
  ([0.561, 1.000, 0.780], "samarium"),
  ([0.902, 0.902, 0.902], "scandium"),
  ([0.851, 0.000, 0.271], "seaborgium"),
  ([1.000, 0.631, 0.000], "selenium"),
  ([0.941, 0.784, 0.627], "silicon"),
  ([0.753, 0.753, 0.753], "silver"),
  ([0.671, 0.361, 0.949], "sodium"),
  ([0.000, 1.000, 0.000], "strontium"),
  ([0.900, 0.775, 0.250], "sulfur"),
  ([0.302, 0.651, 1.000], "tantalum"),
  ([0.231, 0.620, 0.620], "technetium"),
  ([0.831, 0.478, 0.000], "tellurium"),
  ([0.188, 1.000, 0.780], "terbium"),
  ([0.651, 0.329, 0.302], "thallium"),
  ([0.000, 0.729, 1.000], "thorium"),
  ([0.000, 0.831, 0.322], "thulium"),
  ([0.400, 0.502, 0.502], "tin"),
  ([0.749, 0.761, 0.780], "titanium"),
  ([0.129, 0.580, 0.839], "tungsten"),
  ([0.000, 0.561, 1.000], "uranium"),
  ([0.651, 0.651, 0.671], "vanadium"),
  ([0.259, 0.620, 0.690], "xenon"),
  ([0.000, 0.749, 0.220], "ytterbium"),
  ([0.580, 1.000, 1.000], "yttrium"),
  ([0.490, 0.502, 0.690], "zinc"),
  ([0.580, 0.878, 0.878], "zirconium")]


/-- `combined_reverse_colors = {**reverse_simple_named_colors, **reverse_chemical_element_colors}`:
the concatenation, with the element entries appended after (hence, under
last-binding-wins lookup, overriding) the simple named colours. -/
def combined_reverse_colors : List (RGB × String) :=
  reverse_simple_named_colors ++ reverse_chemical_element_colors

/-- Lookup with Python dict semantics on the literal entry list: the LAST
binding of a key wins, because later duplicate keys overwrite earlier ones
both inside a dict literal and in a `{**a, **b}` merge. -/
def dictGet? (l : List (RGB × String)) (k : RGB) : Option String :=
  match l with
  | [] => none
  | kv :: rest =>
    match dictGet? rest k with
    | some v => some v
    | none => if kv.1 = k then some kv.2 else none

/-- `get_color_name_from_rgb(rgb)`: round each channel to 3 decimal places and
look the resulting tuple up in the merged table, defaulting to "Unknown".
Total by construction, as in Python (dict `.get` never raises). -/
def get_color_name_from_rgb (rgb : RGB) : String :=
  (dictGet? combined_reverse_colors (rgb.map round3)).getD "Unknown"

/-- An atom descriptor as collected by
`cmd.iterate("all", "stored.atom_list.append([model, index, color])")`:
the owning model name, the atom's index, and its colour handle. -/
structure Atom where
  model : String
  idx : Int
  color : Int
deriving DecidableEq

/-- One `cmd.label(selection, text)` call issued to the host. -/
structure LabelCall where
  selection : String
  text : String
deriving DecidableEq

/-- The body of the `for model, resi, color_index in stored.atom_list:` loop
for one atom descriptor: query the colour tuple from the host, resolve the
name, and emit the `cmd.label` call with selection
`f"model {model} and index {resi}"` and text `f"'{color_name}'"`. -/
def labelCallFor (get_color_tuple : Int → RGB) (a : Atom) : LabelCall :=
  let rgb := get_color_tuple a.color
  let color_name := get_color_name_from_rgb rgb
  { selection := "model " ++ a.model ++ " and index " ++ toString a.idx,
    text := "\x27" ++ color_name ++ "\x27" }

/-- The loop of `label_colors_with_names`, emitting one label call per
descriptor, in enumeration order. -/
def labelLoop (get_color_tuple : Int → RGB) : List Atom → List LabelCall
  | [] => []
  | a :: rest => labelCallFor get_color_tuple a :: labelLoop get_color_tuple rest

/-- `label_colors_with_names()`: the host's scene enumeration and colour query
are passed in as the collaborator interface; the result is the trace of label
calls issued plus the final confirmation message printed. -/
def label_colors_with_names (atom_list : List Atom) (get_color_tuple : Int → RGB) :
    List LabelCall × String :=
  (labelLoop get_color_tuple atom_list, "Residues labeled with their color names.")

/-- The module-level state of the script: the three table bindings, as created
once at load time.  Used to express that `get_color_name_from_rgb` reads but
never writes them. -/
structure ModuleState where
  simple : List (RGB × String)
  element : List (RGB × String)
  combined : List (RGB × String)
deriving DecidableEq

/-- The state after module load: both source tables and their merge. -/
def initState : ModuleState :=
  { simple := reverse_simple_named_colors,
    element := reverse_chemical_element_colors,
    combined := reverse_simple_named_colors ++ reverse_chemical_element_colors }

/-- `get_color_name_from_rgb` as a state transformer: it reads
`combined_reverse_colors` from the module state and returns the name together
with the (unchanged) state. -/
def get_color_name_from_rgb_st (st : ModuleState) (rgb : RGB) : String × ModuleState :=
  ((dictGet? st.combined (rgb.map round3)).getD "Unknown", st)

/-- Call `get_color_name_from_rgb` `n` times on the same input, threading the
module state through; collects the returned names and the final state. -/
def callRepeatedly : Nat → ModuleState → RGB → List String × ModuleState
  | 0, st, _ => ([], st)
  | Nat.succ n, st, rgb =>
    let p := get_color_name_from_rgb_st st rgb
    let q := callRepeatedly n p.2 rgb
    (p.1 :: q.1, q.2)

/-! ### Helper lemmas -/

theorem dictGet?_mem : ∀ {l : List (RGB × String)} {k : RGB} {v : String},
    dictGet? l k = some v → (k, v) ∈ l := by
  intro l
  induction l with
  | nil => intro k v h; simp [dictGet?] at h
  | cons kv rest ih =>
    intro k v h
    rw [dictGet?] at h
    cases hrest : dictGet? rest k with
    | some w =>
      rw [hrest] at h
      cases h
      exact List.mem_cons_of_mem _ (ih hrest)
    | none =>
      rw [hrest] at h
      by_cases hk : kv.1 = k
      · rw [if_pos hk] at h
        cases h
        subst hk
        simp
      · rw [if_neg hk] at h
        cases h

theorem dictGet?_eq_none : ∀ {l : List (RGB × String)} {k : RGB},
    (∀ kv ∈ l, kv.1 ≠ k) → dictGet? l k = none := by
  intro l
  induction l with
  | nil => intro k _; rfl
  | cons kv rest ih =>
    intro k h
    have h1 : dictGet? rest k = none := ih fun kv hm => h kv (List.mem_cons_of_mem _ hm)
    have h2 : kv.1 ≠ k := h kv (List.mem_cons_self _ _)
    simp [dictGet?, h1, h2]

theorem dictGet?_append : ∀ (l₁ l₂ : List (RGB × String)) (k : RGB),
    dictGet? (l₁ ++ l₂) k = (dictGet? l₂ k).or (dictGet? l₁ k) := by
  intro l₁
  induction l₁ with
  | nil =>
    intro l₂ k
    simp [dictGet?, Option.or_none]
  | cons kv rest ih =>
    intro l₂ k
    rw [List.cons_append, dictGet?, ih, dictGet?]
    cases h₂ : dictGet? l₂ k <;> cases hr : dictGet? rest k <;>
      simp [Option.or]

/-- Every key listed in either table already has all channels at 3-decimal
precision, so `round3` fixes it (checked by evaluation over all 189 entries). -/
theorem combined_keys_round3_fixed :
    ∀ kv ∈ combined_reverse_colors, kv.1.map round3 = kv.1 := by decide

/-- Every key listed in either table has exactly 3 components. -/
theorem combined_keys_length :
    ∀ kv ∈ combined_reverse_colors, kv.1.length = 3 := by decide

theorem pyRoundInt_intCast (k : ℤ) : pyRoundInt (k : ℚ) = k := by
  have hfl : ratFloor (k : ℚ) = k := by
    rw [ratFloor, Rat.num_intCast, Rat.den_intCast]
    simp
  rw [pyRoundInt]
  simp only [hfl]
  rw [if_pos]
  rw [sub_self]
  norm_num

theorem round3_idem (c : ℚ) : round3 (round3 c) = round3 c := by
  have h : ((pyRoundInt (c * 1000) : ℚ) / 1000) * 1000 = (pyRoundInt (c * 1000) : ℚ) := by
    field_simp
  simp only [round3]
  rw [h, pyRoundInt_intCast]

theorem labelLoop_length (q : Int → RGB) :
    ∀ l : List Atom, (labelLoop q l).length = l.length := by
  intro l
  induction l with
  | nil => rfl
  | cons a rest ih => simp [labelLoop, ih]

theorem labelLoop_get (q : Int → RGB) :
    ∀ (l : List Atom) (i : Nat) (hc : i < (labelLoop q l).length) (ha : i < l.length),
      (labelLoop q l).get ⟨i, hc⟩ = labelCallFor q (l.get ⟨i, ha⟩) := by
  intro l
  induction l with
  | nil => intro i _ ha; exact absurd ha (Nat.not_lt_zero i)
  | cons a rest ih =>
    intro i hc ha
    cases i with
    | zero => rfl
    | succ j =>
      have hc2 : j < (labelLoop q rest).length := by
        have := hc
        simp only [labelLoop, List.length_cons] at this
        exact Nat.lt_of_succ_lt_succ this
      exact ih j hc2 (Nat.lt_of_succ_lt_succ ha)

/-! ### Claims -/

/-- C1: for every input triple whose per-channel 3-decimal rounding is not a
key of either source table, `get_color_name_from_rgb` returns the sentinel
"Unknown" (and, being a total Lean function, never raises). -/
theorem C1_unmatched_returns_unknown (r g b : ℚ)
    (h1 : [round3 r, round3 g, round3 b] ∉ reverse_simple_named_colors.map Prod.fst)
    (h2 : [round3 r, round3 g, round3 b] ∉ reverse_chemical_element_colors.map Prod.fst) :
    get_color_name_from_rgb [r, g, b] = "Unknown" := by
  have hnone : dictGet? combined_reverse_colors [round3 r, round3 g, round3 b] = none := by
    apply dictGet?_eq_none
    intro kv hkv hk
    rw [combined_reverse_colors] at hkv
    rcases List.mem_append.1 hkv with hm | hm
    · exact h1 (hk ▸ List.mem_map_of_mem Prod.fst hm)
    · exact h2 (hk ▸ List.mem_map_of_mem Prod.fst hm)
  rw [get_color_name_from_rgb]
  simp only [List.map_cons, List.map_nil]
  rw [hnone]
  rfl

/-- C1 witness: the concrete unmatched triple (0.123, 0.456, 0.789) resolves
to "Unknown". -/
theorem C1_unmatched_returns_unknown_witness :
    get_color_name_from_rgb [0.123, 0.456, 0.789] = "Unknown" :=
  C1_unmatched_returns_unknown 0.123 0.456 0.789 (by decide) (by decide)

/-- C2 counterexample: the pair ((1.0, 1.0, 0.0), "dash") is listed in
`reverse_simple_named_colors`, yet `get_color_name_from_rgb` on that key
returns "yellow" (the later listing of the same key), not "dash".  So it is
not the case that every listed (key, name) pair resolves to its name. -/
theorem C2_counterexample :
    ([1.0, 1.0, 0.0], "dash") ∈ reverse_simple_named_colors ∧
    get_color_name_from_rgb [1.0, 1.0, 0.0] ≠ "dash" := by
  constructor
  · decide
  · decide

/-- C2 (amended): for every key–name association of the merged table under
Python dict semantics — within the concatenated entry list the LAST listing
of a key wins, element entries coming after (hence overriding) simple ones —
`get_color_name_from_rgb` applied to the key returns exactly that name. -/
theorem C2_resolve_merged_association (k : RGB) (v : String)
    (h : dictGet? combined_reverse_colors k = some v) :
    get_color_name_from_rgb k = v := by
  have hmem : (k, v) ∈ combined_reverse_colors := dictGet?_mem h
  have hfix : k.map round3 = k := combined_keys_round3_fixed (k, v) hmem
  rw [get_color_name_from_rgb, hfix, h]
  rfl

/-- C2 witness: the merged table associates (0.5, 1.0, 1.0) with "aquamarine"
and the resolver returns it. -/
theorem C2_resolve_merged_association_witness :
    get_color_name_from_rgb [0.5, 1.0, 1.0] = "aquamarine" :=
  C2_resolve_merged_association [0.5, 1.0, 1.0] "aquamarine" (by decide)

/-- C3: for every RGB key present in both source tables,
`get_color_name_from_rgb` returns the element-colour table's (dict-semantics)
name, not the simple-colour one. -/
theorem C3_element_table_wins (k : RGB) (v : String)
    (_hs : k ∈ reverse_simple_named_colors.map Prod.fst)
    (he : dictGet? reverse_chemical_element_colors k = some v) :
    get_color_name_from_rgb k = v := by
  have hmem : (k, v) ∈ combined_reverse_colors := by
    rw [combined_reverse_colors]
    exact List.mem_append_right _ (dictGet?_mem he)
  have hfix : k.map round3 = k := combined_keys_round3_fixed (k, v) hmem
  rw [get_color_name_from_rgb, hfix, combined_reverse_colors, dictGet?_append, he]
  rfl

/-- C3 witness: (0.2, 1.0, 0.2) is a key of both tables and resolves to the
element table's "carbon" (not the simple table's "tv_green"). -/
theorem C3_element_table_wins_witness :
    get_color_name_from_rgb [0.2, 1.0, 0.2] = "carbon" :=
  C3_element_table_wins [0.2, 1.0, 0.2] "carbon" (by decide) (by decide)

/-- C4: on a scene of N atom descriptors, `label_colors_with_names` issues
exactly N label calls, one per descriptor in enumeration order, each selecting
that atom by model + index and setting the label to the quoted name resolved
from that atom's queried colour tuple. -/
theorem C4_label_calls (atom_list : List Atom) (get_color_tuple : Int → RGB) :
    ((label_colors_with_names atom_list get_color_tuple).1).length = atom_list.length ∧
    ∀ (i : Nat) (hc : i < ((label_colors_with_names atom_list get_color_tuple).1).length)
      (ha : i < atom_list.length),
      ((label_colors_with_names atom_list get_color_tuple).1).get ⟨i, hc⟩ =
        { selection := "model " ++ (atom_list.get ⟨i, ha⟩).model ++ " and index " ++
            toString (atom_list.get ⟨i, ha⟩).idx,
          text := "\x27" ++
            get_color_name_from_rgb (get_color_tuple (atom_list.get ⟨i, ha⟩).color) ++
            "\x27" } := by
  constructor
  · exact labelLoop_length get_color_tuple atom_list
  · intro i hc ha
    exact labelLoop_get get_color_tuple atom_list i hc ha

/-- A concrete two-atom scene for exercising the labelling procedure. -/
def demoAtoms : List Atom :=
  [{ model := "m1", idx := 1, color := 5 }, { model := "m2", idx := 2, color := 6 }]

/-- A concrete host colour query: handle 5 is red, anything else is an
unmatched colour. -/
def demoQuery : Int → RGB :=
  fun c => if c = 5 then [1.0, 0.0, 0.0] else [0.123, 0.456, 0.789]

/-- C4 witness: on the concrete two-atom scene, the procedure issues exactly 2
label calls, with the expected selections and quoted names. -/
theorem C4_label_calls_witness :
    ((label_colors_with_names demoAtoms demoQuery).1).length = 2 ∧
    (label_colors_with_names demoAtoms demoQuery).1.get ⟨0, by decide⟩ =
      { selection := "model m1 and index 1", text := "\x27red\x27" } ∧
    (label_colors_with_names demoAtoms demoQuery).1.get ⟨1, by decide⟩ =
      { selection := "model m2 and index 2", text := "\x27Unknown\x27" } := by
  have h := C4_label_calls demoAtoms demoQuery
  refine ⟨h.1, ?_, ?_⟩
  · exact (h.2 0 (by decide) (by decide)).trans (by decide)
  · exact (h.2 1 (by decide) (by decide)).trans (by decide)

/-- C5: the triple (0.9, 0.9, 0.9) resolves to "hydrogen". -/
theorem C5_hydrogen : get_color_name_from_rgb [0.9, 0.9, 0.9] = "hydrogen" := by decide

/-- C6: rounding idempotence — resolving a raw triple and resolving its
per-channel 3-decimal rounding give the same name, for all inputs. -/
theorem C6_round_idempotent (r g b : ℚ) :
    get_color_name_from_rgb [r, g, b] =
      get_color_name_from_rgb [round3 r, round3 g, round3 b] := by
  rw [get_color_name_from_rgb, get_color_name_from_rgb]
  simp only [List.map_cons, List.map_nil, round3_idem]

/-- C7: `get_color_name_from_rgb` has no side effects: as a state transformer
over the module bindings it returns the state unchanged, and calling it any
number of times on the same input returns the same name every time; on the
load-time state it agrees with the pure function. -/
theorem C7_no_side_effects (st : ModuleState) (rgb : RGB) (n : Nat) :
    (get_color_name_from_rgb_st st rgb).2 = st ∧
    callRepeatedly n st rgb =
      (List.replicate n (get_color_name_from_rgb_st st rgb).1, st) ∧
    (get_color_name_from_rgb_st initState rgb).1 = get_color_name_from_rgb rgb := by
  refine ⟨rfl, ?_, rfl⟩
  induction n with
  | zero => rfl
  | succ m ih =>
    have hst : (get_color_name_from_rgb_st st rgb).2 = st := rfl
    simp [callRepeatedly, hst, ih, List.replicate_succ]

/-- C8: the element-table entry overrides even a widely used plain colour
name: (0.0, 1.0, 0.0) is "green" in the simple table and "strontium" in the
element table, and the resolver returns "strontium". -/
theorem C8_strontium_overrides_green :
    ([0.0, 1.0, 0.0], "green") ∈ reverse_simple_named_colors ∧
    ([0.0, 1.0, 0.0], "strontium") ∈ reverse_chemical_element_colors ∧
    get_color_name_from_rgb [0.0, 1.0, 0.0] = "strontium" := by
  refine ⟨by decide, by decide, by decide⟩

/-- C9: within one table the later literal entry for a duplicated key wins:
(1.0, 1.0, 0.0) is listed both as "dash" and (later) as "yellow" in the
simple table, its dict-semantics lookup there gives "yellow", and the
resolver returns "yellow". -/
theorem C9_later_duplicate_wins :
    ([1.0, 1.0, 0.0], "dash") ∈ reverse_simple_named_colors ∧
    ([1.0, 1.0, 0.0], "yellow") ∈ reverse_simple_named_colors ∧
    dictGet? reverse_simple_named_colors [1.0, 1.0, 0.0] = some "yellow" ∧
    get_color_name_from_rgb [1.0, 1.0, 0.0] = "yellow" := by
  refine ⟨by decide, by decide, by decide, by decide⟩

/-- C10: the resolver is total on inputs of any length: every table key has
exactly 3 components, so any input that is not a 3-component sequence
resolves to "Unknown" without error. -/
theorem C10_non_triple_returns_unknown (rgb : RGB) (h : rgb.length ≠ 3) :
    get_color_name_from_rgb rgb = "Unknown" := by
  have hnone : dictGet? combined_reverse_colors (rgb.map round3) = none := by
    apply dictGet?_eq_none
    intro kv hkv hk
    apply h
    have h3 : kv.1.length = 3 := combined_keys_length kv hkv
    rw [hk, List.length_map] at h3
    exact h3
  rw [get_color_name_from_rgb, hnone]
  rfl

/-- C10 witness: a 4-component input resolves to "Unknown". -/
theorem C10_non_triple_returns_unknown_witness :
    get_color_name_from_rgb [1.0, 0.0, 0.0, 0.0] = "Unknown" :=
  C10_non_triple_returns_unknown [1.0, 0.0, 0.0, 0.0] (by decide)

end ShowColor
